import Mathlib

/-!
Verification development for a task/subtask tracker (single-file Streamlit
app `app.py`).  The app stores tasks in one SQLite table, mirrors them in an
in-memory session list, parses `MMDD: title` subtask lines out of a free-text
description, and renders a dashboard, a due-today/overdue view, CSV export,
and inline complete/delete handlers.

The shallow embedding below translates the relevant Python functions and
page handlers into Lean definitions:
  - stored rows (`Row`) carry the serialized subtask blob as an
    `Option (List Subtask)`, where `none` stands for a subtasks column whose
    text is not valid JSON (any value on which `json.loads` raises);
  - statuses are the literal strings used by the app
    ("Not Started" / "In Progress" / "Completed");
  - `int(...)` on the 4-digit date codes becomes a decimal fold over the
    characters (the codes produced by the regex are always digit strings);
  - page handlers become pure functions from (db rows, in-memory tasks) to
    updated (db rows, in-memory tasks).
-/

namespace PT

/-- A subtask record, as produced by `extract_subtasks` and stored inside the
serialized `subtasks` column: `{"date_code", "date_str", "title", "status"}`. -/
structure Subtask where
  date_code : String
  date_str : String
  title : String
  status : String
deriving DecidableEq

/-- An in-memory task dict, as kept in `st.session_state.tasks`. -/
structure Task where
  project : String
  task : String
  description : String
  status : String
  subtasks : List Subtask
deriving DecidableEq

/-- A stored row of the `tasks` table (without the autoincrement id, which no
page handler ever reads).  `subtasks_json` is the deserialization of the
`subtasks` text column: `some l` when the column holds valid JSON for the
subtask list `l`, `none` when `json.loads` would raise on it. -/
structure Row where
  project : String
  task : String
  description : String
  status : String
  subtasks_json : Option (List Subtask)
deriving DecidableEq

/-- Python `int(s)` on a decimal digit string, as applied to `date_code` and
to `datetime.now().strftime("%m%d")` by the Daily Tasks and Dashboard pages. -/
def codeNum (s : String) : Nat :=
  s.data.foldl (fun n c => n * 10 + (c.toNat - 48)) 0

/-- The three ways the Daily Tasks page renders a listed (task, subtask) pair:
gray strikethrough (completed), red "[Overdue]" marker, or bold (due today). -/
inductive DueClass where
  | Completed
  | Overdue
  | DueToday
deriving DecidableEq

/-- The Daily Tasks page filter (lines 246 and 249 of app.py): a subtask is
listed unless it is completed-and-past, and only when its code is ≤ today:
`if status == "Completed" and sub_num < today_num: continue` followed by
`if sub_num <= today_num:`. -/
def dailyInclude (todayNum : Nat) (s : Subtask) : Bool :=
  !(s.status == "Completed" && decide (codeNum s.date_code < todayNum)) &&
    decide (codeNum s.date_code ≤ todayNum)

/-- The sequence of (task, subtask) pairs the Daily Tasks page displays, in
loop order: outer loop over `st.session_state.tasks`, inner loop over each
task's subtasks, keeping the pairs that pass `dailyInclude`. -/
def due_or_overdue (tasks : List Task) (todayNum : Nat) : List (Task × Subtask) :=
  tasks.flatMap fun t => (t.subtasks.filter (dailyInclude todayNum)).map fun s => (t, s)

/-- All (task, subtask) pairs of the task list, in the same loop order,
without any due filtering. -/
def allPairs (tasks : List Task) : List (Task × Subtask) :=
  tasks.flatMap fun t => t.subtasks.map fun s => (t, s)

/-- The rendering branch the Daily Tasks page picks for a listed pair
(lines 257-262 of app.py): completed → strikethrough, else `sub_num <
today_num` → "[Overdue]", else bold (due today). -/
def classify (todayNum : Nat) (s : Subtask) : DueClass :=
  if s.status == "Completed" then DueClass.Completed
  else if codeNum s.date_code < todayNum then DueClass.Overdue
  else DueClass.DueToday

/-- The Dashboard page's counter loop (lines 322-332 of app.py): for every
subtask of every task, if its status is not "Completed", bump the overdue
counter when `sub_num < today_num` and the today counter when
`sub_num == today_num`.  Returns (overdue_count, today_count). -/
def dashboard_counts (tasks : List Task) (todayNum : Nat) : Nat × Nat :=
  tasks.foldl
    (fun acc t =>
      t.subtasks.foldl
        (fun acc2 s =>
          if s.status ≠ "Completed" then
            if codeNum s.date_code < todayNum then (acc2.1 + 1, acc2.2)
            else if codeNum s.date_code = todayNum then (acc2.1, acc2.2 + 1)
            else acc2
          else acc2)
        acc)
    (0, 0)

end PT

namespace PT

/-! ### Helper lemmas about the Daily Tasks view and the Dashboard counters -/

theorem dailyInclude_iff (today : Nat) (s : Subtask) :
    dailyInclude today s = true ↔
      ((s.status ≠ "Completed" ∧ codeNum s.date_code ≤ today) ∨
       (s.status = "Completed" ∧ codeNum s.date_code = today)) := by
  by_cases h : s.status = "Completed"
  · simp [dailyInclude, h]
    omega
  · simp [dailyInclude, h]

theorem mem_due_or_overdue (tasks : List Task) (today : Nat) (t : Task) (s : Subtask) :
    (t, s) ∈ due_or_overdue tasks today ↔
      ((t, s) ∈ allPairs tasks ∧ dailyInclude today s = true) := by
  simp only [due_or_overdue, allPairs, List.mem_flatMap, List.mem_map, List.mem_filter,
    Prod.mk.injEq]
  constructor
  · rintro ⟨a, ha, b, ⟨hb, hinc⟩, rfl, rfl⟩
    exact ⟨⟨a, ha, b, hb, rfl, rfl⟩, hinc⟩
  · rintro ⟨⟨a, ha, b, hb, rfl, rfl⟩, hinc⟩
    exact ⟨a, ha, b, ⟨hb, hinc⟩, rfl, rfl⟩

theorem classify_eq_completed (today : Nat) (s : Subtask) :
    classify today s = DueClass.Completed ↔ s.status = "Completed" := by
  by_cases h : s.status = "Completed"
  · simp [classify, h]
  · simp [classify, h]
    split <;> simp

theorem classify_eq_overdue (today : Nat) (s : Subtask) :
    classify today s = DueClass.Overdue ↔
      (codeNum s.date_code < today ∧ s.status ≠ "Completed") := by
  by_cases h : s.status = "Completed"
  · simp [classify, h]
  · simp [classify, h]

/-- Dashboard overdue predicate: a non-completed subtask whose code is in the
strict past. -/
def pOv (today : Nat) (s : Subtask) : Bool :=
  !(s.status == "Completed") && decide (codeNum s.date_code < today)

/-- Dashboard due-today predicate: a non-completed subtask whose code equals
today's code. -/
def pToday (today : Nat) (s : Subtask) : Bool :=
  !(s.status == "Completed") && decide (codeNum s.date_code = today)

theorem dash_inner_eq (today : Nat) (subs : List Subtask) (acc : Nat × Nat) :
    subs.foldl
      (fun acc2 s =>
        if s.status ≠ "Completed" then
          if codeNum s.date_code < today then (acc2.1 + 1, acc2.2)
          else if codeNum s.date_code = today then (acc2.1, acc2.2 + 1)
          else acc2
        else acc2)
      acc
    = (acc.1 + subs.countP (pOv today), acc.2 + subs.countP (pToday today)) := by
  induction subs generalizing acc with
  | nil => simp
  | cons s rest ih =>
    rw [List.foldl_cons, ih, List.countP_cons, List.countP_cons]
    by_cases h : s.status = "Completed"
    · simp [pOv, pToday, h]
    · by_cases hlt : codeNum s.date_code < today
      · have : ¬ codeNum s.date_code = today := by omega
        simp [pOv, pToday, h, hlt, this]
        omega
      · by_cases heq : codeNum s.date_code = today
        · simp [pOv, pToday, h, hlt, heq]
          omega
        · simp [pOv, pToday, h, hlt, heq]

theorem dashboard_counts_eq (tasks : List Task) (today : Nat) :
    dashboard_counts tasks today =
      ((tasks.map fun t => t.subtasks.countP (pOv today)).sum,
       (tasks.map fun t => t.subtasks.countP (pToday today)).sum) := by
  suffices h : ∀ acc : Nat × Nat,
      tasks.foldl
        (fun acc t =>
          t.subtasks.foldl
            (fun acc2 s =>
              if s.status ≠ "Completed" then
                if codeNum s.date_code < today then (acc2.1 + 1, acc2.2)
                else if codeNum s.date_code = today then (acc2.1, acc2.2 + 1)
                else acc2
              else acc2)
            acc)
        acc
      = (acc.1 + (tasks.map fun t => t.subtasks.countP (pOv today)).sum,
         acc.2 + (tasks.map fun t => t.subtasks.countP (pToday today)).sum) by
    rw [dashboard_counts, h (0, 0)]
    simp
  induction tasks with
  | nil => simp
  | cons t rest ih =>
    intro acc
    rw [List.foldl_cons, dash_inner_eq, ih]
    simp
    omega

theorem view_count_eq (tasks : List Task) (today : Nat) (q : Subtask → Bool) :
    ((due_or_overdue tasks today).filter fun p => q p.2).length
      = (tasks.map fun t => t.subtasks.countP fun s => dailyInclude today s && q s).sum := by
  induction tasks with
  | nil => simp [due_or_overdue]
  | cons t rest ih =>
    simp only [due_or_overdue, List.flatMap_cons, List.filter_append, List.length_append]
    rw [show (rest.flatMap fun t =>
        (t.subtasks.filter (dailyInclude today)).map fun s => (t, s)) =
        due_or_overdue rest today from rfl, ih]
    simp only [List.map_cons, List.sum_cons]
    congr 1
    rw [← List.countP_eq_length_filter, List.countP_map]
    rw [List.countP_filter]
    apply List.countP_congr
    intro s _
    simp [Function.comp, Bool.and_comm]

theorem inc_and_overdue (today : Nat) (s : Subtask) :
    (dailyInclude today s && decide (classify today s = DueClass.Overdue)) = pOv today s := by
  by_cases h : s.status = "Completed" <;>
    by_cases hlt : codeNum s.date_code < today <;>
      by_cases heq : codeNum s.date_code = today <;>
        simp [dailyInclude, classify, pOv, h, hlt, heq] <;> omega

theorem inc_and_duetoday (today : Nat) (s : Subtask) :
    (dailyInclude today s && decide (classify today s = DueClass.DueToday)) = pToday today s := by
  by_cases h : s.status = "Completed" <;>
    by_cases hlt : codeNum s.date_code < today <;>
      by_cases heq : codeNum s.date_code = today <;>
        simp [dailyInclude, classify, pToday, h, hlt, heq] <;> omega

/-! ### Claim theorems C1, C3, C4 -/

/-- C1: for every task list and as-of code, the Daily Tasks view contains
exactly the (task, subtask) pairs where either the subtask is not Completed
and its code is ≤ today's code, or it is Completed and its code equals
today's code; and every pair it contains is rendered Completed iff its status
is "Completed", Overdue iff its code is strictly past and it is not
completed, and DueToday iff its code equals today's and it is not
completed. -/
theorem c1_due_or_overdue_view_spec (tasks : List Task) (today : Nat)
    (t : Task) (s : Subtask) :
    ((t, s) ∈ due_or_overdue tasks today ↔
        ((t, s) ∈ allPairs tasks ∧
          ((s.status ≠ "Completed" ∧ codeNum s.date_code ≤ today) ∨
           (s.status = "Completed" ∧ codeNum s.date_code = today)))) ∧
    ((t, s) ∈ due_or_overdue tasks today →
        ((classify today s = DueClass.Completed ↔ s.status = "Completed") ∧
         (classify today s = DueClass.Overdue ↔
            (codeNum s.date_code < today ∧ s.status ≠ "Completed")) ∧
         (classify today s = DueClass.DueToday ↔
            (codeNum s.date_code = today ∧ s.status ≠ "Completed")))) := by
  constructor
  · rw [mem_due_or_overdue, dailyInclude_iff]
  · intro hmem
    have hcond := ((mem_due_or_overdue tasks today t s).1 hmem).2
    rw [dailyInclude_iff] at hcond
    refine ⟨classify_eq_completed today s, classify_eq_overdue today s, ?_⟩
    by_cases h : s.status = "Completed"
    · simp [classify, h]
    · have hle : codeNum s.date_code ≤ today := by
        rcases hcond with ⟨_, hle⟩ | ⟨hc2, _⟩
        · exact hle
        · exact absurd hc2 h
      simp [classify, h]
      omega

/-- C1 witness: with today's code 0615 (615), a not-started subtask coded
"0610" is in the view and classified Overdue. -/
theorem c1_due_or_overdue_view_spec_witness :
    (Task.mk "Lab" "Prep" "0610: buffers" "Not Started"
        [Subtask.mk "0610" "June 10" "buffers" "Not Started"],
      Subtask.mk "0610" "June 10" "buffers" "Not Started") ∈
        due_or_overdue
          [Task.mk "Lab" "Prep" "0610: buffers" "Not Started"
            [Subtask.mk "0610" "June 10" "buffers" "Not Started"]] 615 ∧
    classify 615 (Subtask.mk "0610" "June 10" "buffers" "Not Started") = DueClass.Overdue := by
  have h := c1_due_or_overdue_view_spec
    [Task.mk "Lab" "Prep" "0610: buffers" "Not Started"
      [Subtask.mk "0610" "June 10" "buffers" "Not Started"]] 615
    (Task.mk "Lab" "Prep" "0610: buffers" "Not Started"
      [Subtask.mk "0610" "June 10" "buffers" "Not Started"])
    (Subtask.mk "0610" "June 10" "buffers" "Not Started")
  have hmem := h.1.mpr ⟨by decide, Or.inl ⟨by decide, by decide⟩⟩
  exact ⟨hmem, ((h.2 hmem).2.1).mpr ⟨by decide, by decide⟩⟩

/-- C3: the Dashboard's overdue and due-today counters agree with the number
of pairs that the (independently written) Daily Tasks view classifies as
Overdue, respectively DueToday. -/
theorem c3_dashboard_counts_match_view (tasks : List Task) (today : Nat) :
    (dashboard_counts tasks today).1 =
        ((due_or_overdue tasks today).filter fun p =>
          classify today p.2 = DueClass.Overdue).length ∧
    (dashboard_counts tasks today).2 =
        ((due_or_overdue tasks today).filter fun p =>
          classify today p.2 = DueClass.DueToday).length := by
  constructor
  · have hv := view_count_eq tasks today (fun s => decide (classify today s = DueClass.Overdue))
    simp only [inc_and_overdue] at hv
    rw [dashboard_counts_eq]
    exact hv.symm
  · have hv := view_count_eq tasks today (fun s => decide (classify today s = DueClass.DueToday))
    simp only [inc_and_duetoday] at hv
    rw [dashboard_counts_eq]
    exact hv.symm

/-- C4: `date_code` is compared as a flat 4-digit integer ("1231" → 1231,
"0101" → 101) with no year-rollover handling: Overdue means exactly
`int(code) < int(today)` for a non-completed subtask, and a "1231" subtask is
never shown (in particular never Overdue) when today is "0101". -/
theorem c4_flat_mmdd_comparison :
    codeNum "1231" = 1231 ∧ codeNum "0101" = 101 ∧
    (∀ (today : Nat) (s : Subtask),
        classify today s = DueClass.Overdue ↔
          (codeNum s.date_code < today ∧ s.status ≠ "Completed")) ∧
    (∀ (s : Subtask) (tasks : List Task) (t : Task), s.date_code = "1231" →
        ((t, s) ∉ due_or_overdue tasks (codeNum "0101") ∧
         classify (codeNum "0101") s ≠ DueClass.Overdue)) := by
  refine ⟨by decide, by decide, classify_eq_overdue, ?_⟩
  intro s tasks t hd
  constructor
  · intro hmem
    have hcond := ((mem_due_or_overdue tasks (codeNum "0101") t s).1 hmem).2
    rw [dailyInclude_iff, hd] at hcond
    have h1 : codeNum "1231" = 1231 := by decide
    have h2 : codeNum "0101" = 101 := by decide
    rcases hcond with ⟨_, hle⟩ | ⟨_, heq⟩ <;> omega
  · intro hc
    rw [classify_eq_overdue, hd] at hc
    have h1 : codeNum "1231" = 1231 := by decide
    have h2 : codeNum "0101" = 101 := by decide
    omega

/-- C4 witness: a concrete not-started December 31 subtask is absent from the
view computed for January 1. -/
theorem c4_flat_mmdd_comparison_witness :
    (Task.mk "P" "T" "" "Not Started" [Subtask.mk "1231" "December 31" "nye" "Not Started"],
      Subtask.mk "1231" "December 31" "nye" "Not Started") ∉
        due_or_overdue
          [Task.mk "P" "T" "" "Not Started" [Subtask.mk "1231" "December 31" "nye" "Not Started"]]
          (codeNum "0101") := by
  exact (c4_flat_mmdd_comparison.2.2.2 (Subtask.mk "1231" "December 31" "nye" "Not Started")
    [Task.mk "P" "T" "" "Not Started" [Subtask.mk "1231" "December 31" "nye" "Not Started"]]
    (Task.mk "P" "T" "" "Not Started" [Subtask.mk "1231" "December 31" "nye" "Not Started"])
    rfl).1

end PT

namespace PT

/-! ### Subtask extraction (`extract_subtasks`, app.py lines 10-29)

The Python code runs `re.findall(r"(\d{4}):\s*(.+)", description_text)` and,
for each `(code, text)` match, renders the code through
`datetime.strptime(f"{month:02d}{day:02d}", "%m%d")` /
`strftime("%B %d")`, falling back to `f"Invalid date ({code})"` on
`ValueError`.  The scanner below reproduces `re.findall` for this fixed
pattern (left-to-right, non-overlapping, one-position advance on failure,
greedy `\s*` with backtracking into `(.+)`, where `.` matches everything but
the newline and `\s` is the six ASCII whitespace characters; digits are the
ASCII digits).  `strptime` parses with its default year 1900, which is not a
leap year, so February has 28 days; `strftime("%B %d")` zero-pads the day. -/

/-- Numeric value of an ASCII digit character, as `int` reads each digit. -/
def digitVal (c : Char) : Nat := c.toNat - 48

/-- Days per month in `strptime`'s default year 1900 (not a leap year). -/
def daysInMonth1900 : Nat → Nat
  | 1 => 31 | 2 => 28 | 3 => 31 | 4 => 30 | 5 => 31 | 6 => 30
  | 7 => 31 | 8 => 31 | 9 => 30 | 10 => 31 | 11 => 30 | 12 => 31
  | _ => 0

/-- English month names, as `strftime("%B")` produces in the C locale. -/
def monthName : Nat → String
  | 1 => "January" | 2 => "February" | 3 => "March" | 4 => "April"
  | 5 => "May" | 6 => "June" | 7 => "July" | 8 => "August"
  | 9 => "September" | 10 => "October" | 11 => "November" | 12 => "December"
  | _ => ""

/-- Two-digit zero-padded rendering, as `strftime("%d")` and `f"{n:02d}"`. -/
def pad2 (n : Nat) : String := if n < 10 then "0" ++ toString n else toString n

/-- The date rendering of app.py lines 16-22: split the 4-digit code into
`month = int(code[:2])`, `day = int(code[2:])`, try
`strptime(f"{month:02d}{day:02d}", "%m%d")` (year 1900) and render
`strftime("%B %d")`; on `ValueError` return the in-band sentinel
`"Invalid date (CODE)"`.  The regex guarantees 4 ASCII digits, so the
catch-all branch is unreachable from `extract_subtasks`. -/
def format_date_code (code : String) : String :=
  match code.data with
  | [a, b, c, d] =>
    let month := digitVal a * 10 + digitVal b
    let day := digitVal c * 10 + digitVal d
    if 1 ≤ month ∧ month ≤ 12 ∧ 1 ≤ day ∧ day ≤ daysInMonth1900 month then
      monthName month ++ " " ++ pad2 day
    else "Invalid date (" ++ code ++ ")"
  | _ => "Invalid date (" ++ code ++ ")"

/-- Python `\s` on ASCII text: space, tab, newline, carriage return,
vertical tab, form feed. -/
def isPySpace (c : Char) : Bool :=
  c == ' ' || c == '\t' || c == '\n' || c == '\r' || c == '\x0b' || c == '\x0c'

/-- Whether `.` can match at offset `n` of `r`: a character exists there and
is not a newline. -/
def okDot (r : List Char) (n : Nat) : Bool :=
  match r.drop n with
  | [] => false
  | c :: _ => c != '\n'

/-- Greedy `\s*` backtracking: the largest offset `n' ≤ n` at which `(.+)`
can start, i.e. at which `.` matches. -/
def backtrack (r : List Char) : Nat → Option Nat
  | 0 => if okDot r 0 then some 0 else none
  | n + 1 => if okDot r (n + 1) then some (n + 1) else backtrack r n

/-- Match `\s*(.+)` against `r`: `\s*` consumes the longest whitespace prefix
that still lets `(.+)` match at least one character, and `(.+)` then greedily
takes everything up to the next newline or the end. -/
def matchTail (r : List Char) : Option (List Char × List Char) :=
  match backtrack r (r.takeWhile isPySpace).length with
  | none => none
  | some n =>
    let tail := r.drop n
    some (tail.takeWhile (fun c => c != '\n'), tail.dropWhile (fun c => c != '\n'))

/-- Match the whole pattern `(\d{4}):\s*(.+)` at the head of the input:
four ASCII digits, a colon, then `\s*(.+)`.  Returns (code characters,
title characters, unconsumed rest). -/
def tryMatch : List Char → Option (List Char × List Char × List Char)
  | a :: b :: c :: d :: e :: r =>
    if a.isDigit && b.isDigit && c.isDigit && d.isDigit && e == ':' then
      match matchTail r with
      | none => none
      | some (title, rest) => some ([a, b, c, d], title, rest)
    else none
  | _ => none

/-- `re.findall` for the fixed pattern: try to match at each position, emit
non-overlapping matches left to right, resume after each match, advance one
character on failure.  The fuel argument is instantiated with the input
length, which bounds the number of steps since every step consumes at least
one character. -/
def scan : Nat → List Char → List (List Char × List Char)
  | 0, _ => []
  | _ + 1, [] => []
  | fuel + 1, ch :: rest =>
    match tryMatch (ch :: rest) with
    | some (code, title, rest2) => (code, title) :: scan fuel rest2
    | none => scan fuel rest

/-- `extract_subtasks` (app.py lines 10-29): one subtask dict per regex
match, in order of occurrence, with `date_str` rendered by
`format_date_code` and status initialized to "Not Started". -/
def extract_subtasks (text : String) : List Subtask :=
  (scan text.data.length text.data).map fun p =>
    { date_code := String.mk p.1
      date_str := format_date_code (String.mk p.1)
      title := String.mk p.2
      status := "Not Started" }

/-! ### Claim theorems C5, C10 -/

/-- C5: date-code formatting yields "March 05" for "0305" and the in-band
sentinel for the non-dates "0230" and "1301"; in general, any month/day
split that is a valid year-1900 calendar date renders as "Month DD"
(zero-padded day) and any out-of-range day renders as the sentinel, never an
exception (the function is total). -/
theorem c5_format_date_code_spec :
    format_date_code "0305" = "March 05" ∧
    format_date_code "0230" = "Invalid date (0230)" ∧
    format_date_code "1301" = "Invalid date (1301)" ∧
    (∀ m, m < 13 → ∀ d, d < 32 → 1 ≤ m → 1 ≤ d → d ≤ daysInMonth1900 m →
        format_date_code (pad2 m ++ pad2 d) = monthName m ++ " " ++ pad2 d) ∧
    (∀ m, m < 13 → ∀ d, d < 100 → 1 ≤ m → daysInMonth1900 m < d →
        format_date_code (pad2 m ++ pad2 d) = "Invalid date (" ++ (pad2 m ++ pad2 d) ++ ")") := by
  refine ⟨by decide, by decide, by decide, ?_, ?_⟩
  · decide
  · decide

/-- C5 witness: the valid-date clause applied at month 3, day 5. -/
theorem c5_format_date_code_spec_witness :
    format_date_code (pad2 3 ++ pad2 5) = monthName 3 ++ " " ++ pad2 5 :=
  c5_format_date_code_spec.2.2.2.1 3 (by decide) 5 (by decide) (by decide) (by decide) (by decide)

/-- C10: because `strptime("%m%d")` parses against its default year 1900
(not a leap year), a "0229" line yields a subtask whose `date_str` is
exactly "Invalid date (0229)"; the subtask is still produced, with status
"Not Started", rather than dropped.  The first clause shows every produced
subtask carries `date_str = format_date_code date_code` and the default
status; the last clause evaluates the extractor on a "0229: ..."
description. -/
theorem c10_feb29_year1900_sentinel :
    (∀ (text : String) (s : Subtask), s ∈ extract_subtasks text →
        (s.status = "Not Started" ∧ s.date_str = format_date_code s.date_code)) ∧
    format_date_code "0229" = "Invalid date (0229)" ∧
    extract_subtasks "0229: Leap day prep" =
      [Subtask.mk "0229" "Invalid date (0229)" "Leap day prep" "Not Started"] := by
  refine ⟨?_, by decide, by decide⟩
  intro text s hs
  rw [extract_subtasks, List.mem_map] at hs
  obtain ⟨p, _, rfl⟩ := hs
  exact ⟨rfl, rfl⟩

/-- C10 witness: the universal clause applied to the subtask extracted from
a concrete "0229: ..." description. -/
theorem c10_feb29_year1900_sentinel_witness :
    (Subtask.mk "0229" "Invalid date (0229)" "Leap day prep" "Not Started").status
        = "Not Started" ∧
    (Subtask.mk "0229" "Invalid date (0229)" "Leap day prep" "Not Started").date_str
        = format_date_code
            (Subtask.mk "0229" "Invalid date (0229)" "Leap day prep" "Not Started").date_code :=
  c10_feb29_year1900_sentinel.1 "0229: Leap day prep"
    (Subtask.mk "0229" "Invalid date (0229)" "Leap day prep" "Not Started") (by decide)

end PT

namespace PT

/-! ### Page handlers and persistence helpers (app.py parts 2, 3, and export/load) -/

/-- Save Task handler (page "2", app.py lines 131-153).  Python's
`if project and task:` is true exactly when both strings are non-empty
(string truthiness); on success the row is INSERTed and the task dict is
appended to the session list; otherwise a warning is shown and nothing
changes.  The returned Bool is true on the success path, false on the
warning path. -/
def save_task (db : List Row) (mem : List Task) (project task description status : String) :
    (List Row × List Task) × Bool :=
  if project ≠ "" ∧ task ≠ "" then
    ((db ++ [Row.mk project task description status (some (extract_subtasks description))],
      mem ++ [Task.mk project task description status (extract_subtasks description)]), true)
  else ((db, mem), false)

/-- In-place `task["subtasks"][sub_idx]["status"] = "Completed"` (app.py
line 192): set one subtask's status by position.  An out-of-range index
cannot arise from the UI (one button per rendered subtask) and is modeled as
a no-op. -/
def setSubtaskCompleted : Nat → List Subtask → List Subtask
  | _, [] => []
  | 0, s :: rest => { s with status := "Completed" } :: rest
  | n + 1, s :: rest => s :: setSubtaskCompleted n rest

/-- Complete-subtask handler (page "3", app.py lines 191-198): mutate the
clicked subtask's status in the in-memory task at position `idx`, then
`UPDATE tasks SET subtasks = ? WHERE project = ? AND task = ?` rewrites the
subtasks column of every stored row sharing the task's (project, task) key.
`idx` is the position in the displayed list, which is the full session list
when no filter is active; an out-of-range `idx` cannot arise from the UI and
is modeled as a no-op. -/
def complete_subtask (db : List Row) (mem : List Task) (idx sidx : Nat) :
    List Row × List Task :=
  match mem[idx]? with
  | none => (db, mem)
  | some t =>
    (db.map fun r =>
        if r.project = t.project ∧ r.task = t.task then
          { r with subtasks_json := some (setSubtaskCompleted sidx t.subtasks) }
        else r,
     mem.set idx { t with subtasks := setSubtaskCompleted sidx t.subtasks })

/-- Delete handler (page "3", app.py lines 200-208):
`DELETE FROM tasks WHERE project = ? AND task = ?` removes every stored row
matching the clicked task's key, then `st.session_state.tasks.pop(idx)`
removes the single entry at the clicked position from memory.  `idx` is the
position in the displayed list (the full session list when no filter is
active). -/
def delete_handler (db : List Row) (mem : List Task) (idx : Nat) : List Row × List Task :=
  match mem[idx]? with
  | none => (db, mem)
  | some t =>
    (db.filter fun r => ¬(r.project = t.project ∧ r.task = t.task),
     mem.eraseIdx idx)

/-- `format_subtasks` inside `export_all_tasks_to_csv` (app.py lines
104-109): try `json.loads` and join one `"<date_str>: <title> [<status>]"`
line per subtask; on any exception return the literal "[Invalid subtasks]". -/
def format_subtasks (blob : Option (List Subtask)) : String :=
  match blob with
  | none => "[Invalid subtasks]"
  | some subs =>
      String.intercalate "\n"
        (subs.map fun s => s.date_str ++ ": " ++ s.title ++ " [" ++ s.status ++ "]")

/-- `export_all_tasks_to_csv` (app.py lines 97-114), up to the CSV
serialization boundary: one data row
(Project, Task, Description, Status, Subtasks) per stored row. -/
def export_all (db : List Row) : List (String × String × String × String × String) :=
  db.map fun r => (r.project, r.task, r.description, r.status, format_subtasks r.subtasks_json)

/-- `load_tasks_from_db` (app.py lines 48-66): iterate the fetched rows and
`json.loads` each subtasks column with no exception handling, so the first
malformed column raises `json.decoder.JSONDecodeError` and aborts the whole
load; otherwise all task dicts are returned in row order. -/
def load_tasks_from_db : List Row → Except String (List Task)
  | [] => Except.ok []
  | r :: rest =>
    match r.subtasks_json with
    | none => Except.error "json.decoder.JSONDecodeError"
    | some subs =>
      match load_tasks_from_db rest with
      | Except.error e => Except.error e
      | Except.ok ts =>
          Except.ok (Task.mk r.project r.task r.description r.status subs :: ts)

/-! ### Claim theorems C2, C6, C7, C8, C9 -/

/-- C2 counterexample: the claim says a whitespace-only project name fails
validation and leaves the stored task count unchanged, but `if project and
task:` only rejects empty strings: with project " " (a single space, which
`isPySpace` certifies as whitespace and which is non-empty) the save handler
takes the success path and the stored row count grows from 0 to 1. -/
theorem c2_whitespace_project_accepted :
    " ".data.all isPySpace = true ∧ " " ≠ "" ∧
    (save_task [] [] " " "t" "" "Not Started").2 = true ∧
    ((save_task [] [] " " "t" "" "Not Started").1.1).length = 1 := by decide

/-- C2 (amended): creation with an EMPTY project or task name takes the
warning path, creates nothing, writes no state, and leaves the stored count
unchanged; with non-empty project and task (whitespace-only included),
creation derives the subtasks from the description, persists the row, and
appends the task to the in-memory list. -/
theorem c2_create_validation (db : List Row) (mem : List Task) (p t d s : String) :
    ((p = "" ∨ t = "") →
        (save_task db mem p t d s = ((db, mem), false) ∧
         ((save_task db mem p t d s).1.1).length = db.length)) ∧
    (p ≠ "" → t ≠ "" →
        save_task db mem p t d s =
          ((db ++ [Row.mk p t d s (some (extract_subtasks d))],
            mem ++ [Task.mk p t d s (extract_subtasks d)]), true)) := by
  constructor
  · intro h
    have : ¬(p ≠ "" ∧ t ≠ "") := by tauto
    simp [save_task, this]
  · intro hp ht
    simp [save_task, hp, ht]

/-- C2 witness: saving with an empty project into an empty state changes
nothing. -/
theorem c2_create_validation_witness :
    save_task [] [] "" "T" "0101: x" "Not Started" = (([], []), false) ∧
    ((save_task [] [] "" "T" "0101: x" "Not Started").1.1).length = ([] : List Row).length :=
  (c2_create_validation [] [] "" "T" "0101: x" "Not Started").1 (Or.inl rfl)

theorem setSubtaskCompleted_idem (sidx : Nat) (subs : List Subtask) :
    setSubtaskCompleted sidx (setSubtaskCompleted sidx subs) = setSubtaskCompleted sidx subs := by
  induction subs generalizing sidx with
  | nil => simp [setSubtaskCompleted]
  | cons s rest ih =>
    cases sidx with
    | zero => simp [setSubtaskCompleted]
    | succ n => simp [setSubtaskCompleted, ih]

/-- C6: completing a subtask is idempotent.  For every store, task list and
pair of indices, running the complete-subtask handler a second time — at
which point the targeted subtask is already "Completed" — leaves both the
stored rows and the in-memory list exactly as after the first run. -/
theorem c6_complete_subtask_idempotent (db : List Row) (mem : List Task) (idx sidx : Nat) :
    complete_subtask (complete_subtask db mem idx sidx).1
        (complete_subtask db mem idx sidx).2 idx sidx
      = complete_subtask db mem idx sidx := by
  cases h : mem[idx]? with
  | none => simp [complete_subtask, h]
  | some t =>
    have hlt : idx < mem.length := (List.getElem?_eq_some_iff.mp h).1
    simp only [complete_subtask, h]
    rw [List.getElem?_set_self hlt]
    simp only [setSubtaskCompleted_idem]
    rw [List.set_set, List.map_map]
    congr 1
    apply List.map_eq_map_iff.mpr
    intro r _
    by_cases hc : r.project = t.project ∧ r.task = t.task
    · simp [Function.comp, hc]
    · simp [Function.comp, hc]

/-- C7: CSV export renders each well-formed row's Subtasks cell as the
newline-join of "date_str: title [status]" lines; a row whose serialized
subtask data is malformed gets exactly the literal "[Invalid subtasks]"
while every other row (before and after it) is exported normally, and the
export still emits one row per stored row. -/
theorem c7_export_isolation (db1 db2 : List Row) (rbad : Row)
    (h : rbad.subtasks_json = none) :
    export_all (db1 ++ rbad :: db2)
      = export_all db1 ++
          (rbad.project, rbad.task, rbad.description, rbad.status, "[Invalid subtasks]")
            :: export_all db2 ∧
    (∀ (r : Row) (subs : List Subtask), r.subtasks_json = some subs →
        format_subtasks r.subtasks_json
          = String.intercalate "\n"
              (subs.map fun s => s.date_str ++ ": " ++ s.title ++ " [" ++ s.status ++ "]")) ∧
    (export_all (db1 ++ rbad :: db2)).length = db1.length + 1 + db2.length := by
  refine ⟨?_, ?_, ?_⟩
  · simp [export_all, format_subtasks, h]
  · intro r subs hr
    rw [hr, format_subtasks]
  · simp [export_all]
    omega

/-- C7 witness: a two-row store whose second row is malformed exports the
first row normally and the second as the sentinel. -/
theorem c7_export_isolation_witness :
    export_all
        ([Row.mk "P1" "T1" "0101: a" "Not Started"
            (some [Subtask.mk "0101" "January 01" "a" "Not Started"])] ++
          Row.mk "P2" "T2" "d2" "In Progress" none :: [])
      = export_all
          [Row.mk "P1" "T1" "0101: a" "Not Started"
            (some [Subtask.mk "0101" "January 01" "a" "Not Started"])] ++
          ("P2", "T2", "d2", "In Progress", "[Invalid subtasks]") :: export_all [] :=
  (c7_export_isolation
    [Row.mk "P1" "T1" "0101: a" "Not Started"
      (some [Subtask.mk "0101" "January 01" "a" "Not Started"])]
    [] (Row.mk "P2" "T2" "d2" "In Progress" none) rfl).1

/-- C8: the claim says loading fails closed (malformed row → empty subtask
list, other rows still returned), but `load_tasks_from_db` calls
`json.loads` with no exception handling: on a store holding one well-formed
row followed by one malformed row, the load raises and returns no task list
at all — the well-formed row is lost with it. -/
theorem c8_load_crashes_on_malformed_row :
    load_tasks_from_db
        [Row.mk "P1" "T1" "0101: a" "Not Started"
          (some [Subtask.mk "0101" "January 01" "a" "Not Started"]),
         Row.mk "P2" "T2" "bad" "Not Started" none]
      = Except.error "json.decoder.JSONDecodeError" ∧
    (load_tasks_from_db
        [Row.mk "P1" "T1" "0101: a" "Not Started"
          (some [Subtask.mk "0101" "January 01" "a" "Not Started"]),
         Row.mk "P2" "T2" "bad" "Not Started" none]).isOk = false := by
  exact ⟨rfl, rfl⟩

/-- C9 counterexample: two distinguishable tasks share the key ("P", "T").
Deleting at index 1 removes every matching row from the store, but the
in-memory list keeps the FIRST matching entry and loses the second — the
claim's "removes only the first matching entry from the in-memory list" is
false at this input (the remaining list is not [second task]). -/
theorem c9_delete_keeps_first_match :
    (Task.mk "P" "T" "a" "Not Started" []).project
        = (Task.mk "P" "T" "b" "Not Started" []).project ∧
    (Task.mk "P" "T" "a" "Not Started" []).task
        = (Task.mk "P" "T" "b" "Not Started" []).task ∧
    Task.mk "P" "T" "a" "Not Started" [] ≠ Task.mk "P" "T" "b" "Not Started" [] ∧
    (delete_handler
        [Row.mk "P" "T" "a" "Not Started" (some []), Row.mk "P" "T" "b" "Not Started" (some [])]
        [Task.mk "P" "T" "a" "Not Started" [], Task.mk "P" "T" "b" "Not Started" []] 1).1 = [] ∧
    (delete_handler
        [Row.mk "P" "T" "a" "Not Started" (some []), Row.mk "P" "T" "b" "Not Started" (some [])]
        [Task.mk "P" "T" "a" "Not Started" [], Task.mk "P" "T" "b" "Not Started" []] 1).2
      = [Task.mk "P" "T" "a" "Not Started" []] ∧
    (delete_handler
        [Row.mk "P" "T" "a" "Not Started" (some []), Row.mk "P" "T" "b" "Not Started" (some [])]
        [Task.mk "P" "T" "a" "Not Started" [], Task.mk "P" "T" "b" "Not Started" []] 1).2
      ≠ [Task.mk "P" "T" "b" "Not Started" []] := by decide

/-- C9 (amended): deleting the task at position `idx` removes from the store
every row whose (project, task) equals that task's key, and removes from the
in-memory list exactly the entry at position `idx` — one entry, which is the
first matching entry only when the delete is invoked on the first
occurrence of the key. -/
theorem c9_delete_store_all_memory_one (db : List Row) (mem : List Task) (idx : Nat)
    (t : Task) (h : mem[idx]? = some t) :
    (∀ r : Row, r ∈ (delete_handler db mem idx).1 ↔
        (r ∈ db ∧ ¬(r.project = t.project ∧ r.task = t.task))) ∧
    (delete_handler db mem idx).2 = mem.take idx ++ mem.drop (idx + 1) ∧
    (delete_handler db mem idx).2.length = mem.length - 1 := by
  have hlt : idx < mem.length := (List.getElem?_eq_some_iff.mp h).1
  refine ⟨?_, ?_, ?_⟩
  · intro r
    simp [delete_handler, h, List.mem_filter]
    tauto
  · simp [delete_handler, h]
    exact List.eraseIdx_eq_take_drop_succ mem idx
  · simp [delete_handler, h]
    exact List.length_eraseIdx_of_lt hlt

/-- C9 witness: deleting at index 0 of a two-task list leaves exactly the
entry at index 1. -/
theorem c9_delete_store_all_memory_one_witness :
    (delete_handler [Row.mk "P" "T" "a" "Not Started" (some [])]
        [Task.mk "P" "T" "a" "Not Started" [], Task.mk "Q" "U" "b" "Not Started" []] 0).2
      = [Task.mk "P" "T" "a" "Not Started" [],
          Task.mk "Q" "U" "b" "Not Started" []].take 0 ++
        [Task.mk "P" "T" "a" "Not Started" [],
          Task.mk "Q" "U" "b" "Not Started" []].drop (0 + 1) :=
  (c9_delete_store_all_memory_one [Row.mk "P" "T" "a" "Not Started" (some [])]
    [Task.mk "P" "T" "a" "Not Started" [], Task.mk "Q" "U" "b" "Not Started" []] 0
    (Task.mk "P" "T" "a" "Not Started" []) rfl).2.1

end PT
